import Mathlib

/-!
Verification of the Backup Lifecycle & Retention Engine
(`src/main.py` — class `BackupManager`, `src/google_drive.py` — class
`GoogleDriveManager`) against its natural-language specification.

The Python code is shallowly embedded: file contents and directory state
become explicit values, external-process and network outcomes become
oracle parameters, and every Python function the claims touch is
translated into an executable Lean definition of the same name.
Paths are modelled as flat file names (the code keeps every artifact in
one backup directory, so directory structure never matters to a claim).
-/

/-! ### String utilities

The Python code manipulates file names with `str.endswith`, `str.format`,
`Path.suffix`, `Path.with_suffix("")` and string comparison.  These are
modelled on the character list of the string so that every concrete
evaluation reduces in the kernel. -/

/-- `s.endswith t` on character lists. -/
def strEndsWith (s t : String) : Bool :=
  t.data.isSuffixOf s.data

/-- Python string `<` (lexicographic by code point) on character lists. -/
def charListLt : List Char → List Char → Bool
  | [], [] => false
  | [], _ :: _ => true
  | _ :: _, [] => false
  | a :: as, b :: bs => a < b || (a = b && charListLt as bs)

/-- Python string comparison `s < t`. -/
def strLt (s t : String) : Bool :=
  charListLt s.data t.data

/-- Python `str.lower()` (ASCII case folding is all the code relies on). -/
def strLower (s : String) : String :=
  String.mk (s.data.map Char.toLower)

/-- Splits a character list at its last '.': returns
`(chars before the last dot, chars after it)`, `none` when no dot occurs. -/
def splitLastDot : List Char → Option (List Char × List Char)
  | [] => none
  | c :: cs =>
    match splitLastDot cs with
    | some (pre, ext) => some (c :: pre, ext)
    | none => if c = '.' then some ([], cs) else none

/-- `pathlib.Path(s).suffix` for the ordinary file names this system
produces: the final ".ext" component, `""` when the name has no dot. -/
def pathSuffix (s : String) : String :=
  match splitLastDot s.data with
  | some (_, ext) => String.mk ('.' :: ext)
  | none => ""

/-- `pathlib.Path(s).with_suffix("")`: drops the final ".ext" component. -/
def dropLastSuffix (s : String) : String :=
  match splitLastDot s.data with
  | some (pre, _) => String.mk pre
  | none => s

/-- Replaces every occurrence of `pat` by `rep` in a character list,
fuelled by the input length so the recursion is structural. -/
def replaceCharsAux (pat rep : List Char) : Nat → List Char → List Char
  | 0, s => s
  | _, [] => []
  | fuel + 1, c :: cs =>
    if pat ≠ [] ∧ pat.isPrefixOf (c :: cs) then
      rep ++ replaceCharsAux pat rep fuel ((c :: cs).drop pat.length)
    else
      c :: replaceCharsAux pat rep fuel cs

/-- String replacement, used to model Python `str.format` below. -/
def replaceStr (s pat rep : String) : String :=
  String.mk (replaceCharsAux pat.data rep.data s.data.length s.data)

/-- `backup_name_template.format(db_name=..., timestamp=...)`
(src/main.py line 243): substitutes the two placeholders of the template. -/
def formatTemplate (template db_name timestamp : String) : String :=
  replaceStr (replaceStr template "\x7bdb_name\x7d" db_name)
    "\x7btimestamp\x7d" timestamp

/-- `Path.glob` matching for the patterns the code uses: a leading `*`
followed by a literal suffix (the only shape that occurs, `*.sql.gz`,
src/main.py line 224). -/
def globMatches (pattern name : String) : Bool :=
  match pattern.data with
  | '*' :: rest => strEndsWith name (String.mk rest)
  | _ => pattern = name

/-! ### Local filesystem model

The local backup directory is a list of files, each with a name and the
modification time the tier reports (`st_mtime`, as an integer number of
seconds). -/

/-- One file of the local backup directory. -/
structure LocalFile where
  name : String
  mtime : Int
deriving Repr, DecidableEq

/-- The local backup directory. -/
abbrev Fs := List LocalFile

/-- `Path(name).exists()` within the backup directory. -/
def fileExists (name : String) (fs : Fs) : Bool :=
  fs.any (fun f => f.name = name)

/-- `unlink`: removes the file of that name (no-op when absent, which
is how every call site uses it — `missing_ok=True` or guarded). -/
def removeFile (name : String) (fs : Fs) : Fs :=
  fs.filter (fun f => f.name ≠ name)

/-- Creating (or overwriting) a file. -/
def createFile (f : LocalFile) (fs : Fs) : Fs :=
  f :: removeFile f.name fs

theorem fileExists_removeFile (n m : String) (fs : Fs) :
    fileExists n (removeFile m fs) = (decide (n ≠ m) && fileExists n fs) := by
  induction fs with
  | nil => simp [fileExists, removeFile]
  | cons f fs ih =>
    simp only [fileExists, removeFile, List.filter, List.any] at *
    by_cases h1 : f.name = n <;> by_cases h2 : f.name = m <;>
      simp_all [fileExists, removeFile]

theorem fileExists_cons (n : String) (f : LocalFile) (fs : Fs) :
    fileExists n (f :: fs) = (decide (f.name = n) || fileExists n fs) := by
  simp [fileExists]

theorem fileExists_createFile (n : String) (f : LocalFile) (fs : Fs) :
    fileExists n (createFile f fs) = (decide (n = f.name) || fileExists n fs) := by
  by_cases h : n = f.name
  · simp [createFile, fileExists_cons, h]
  · have h' : ¬ (f.name = n) := fun e => h e.symm
    simp [createFile, fileExists_cons, fileExists_removeFile, h, h']

/-! ### Retention policy

`BackupManager._calculate_cutoff_time` (src/main.py lines 145-158) and the
per-file expiry test of `_delete_old_files` (line 168).  Timestamps are
integers (seconds); `datetime.now()` becomes the explicit clock `now`. -/

/-- A retention (or interval) setting `{unit, value}` from the config. -/
structure Retention where
  unit : String
  value : Nat
deriving Repr, DecidableEq

/-- The duration of a retention window in seconds (0 on an unknown unit,
which `calculate_cutoff_time` rejects before this value is ever used). -/
def duration_seconds (r : Retention) : Int :=
  if strLower r.unit = "minutes" then (r.value : Int) * 60
  else if strLower r.unit = "hours" then (r.value : Int) * 3600
  else if strLower r.unit = "days" then (r.value : Int) * 86400
  else 0

/-- `BackupManager._calculate_cutoff_time`: `datetime.now() - timedelta(...)`
per unit; any other unit raises `ValueError` (modelled as `.error`). -/
def calculate_cutoff_time (retention : Retention) (now : Int) : Except String Int :=
  if strLower retention.unit = "minutes" then .ok (now - (retention.value : Int) * 60)
  else if strLower retention.unit = "hours" then .ok (now - (retention.value : Int) * 3600)
  else if strLower retention.unit = "days" then .ok (now - (retention.value : Int) * 86400)
  else .error ("Unsupported time unit: " ++ strLower retention.unit)

/-- The expiry test of the sweep loop (src/main.py line 168):
`file_time < cutoff`, strictly. -/
def is_expired (file_time cutoff : Int) : Bool :=
  decide (file_time < cutoff)

/-! ### Local retention sweep

`BackupManager._delete_old_files` (src/main.py lines 160-174): one `try`
wraps the whole `for` loop over `directory.glob(file_pattern)`, so the
first `unlink` that raises aborts the remainder of the sweep (the
exception is caught after the loop).  The oracle `deleteFails` says which
`unlink` calls raise.  The function returns the surviving directory and
the names successfully deleted, in order; the Python function itself
returns `None` — no deletion count exists in the source. -/

def delete_loop (file_pattern : String) (cutoff : Int)
    (deleteFails : String → Bool) : Fs → Fs × List String
  | [] => ([], [])
  | f :: fs =>
    if globMatches file_pattern f.name && is_expired f.mtime cutoff then
      if deleteFails f.name then
        (f :: fs, [])
      else
        ((delete_loop file_pattern cutoff deleteFails fs).1,
         f.name :: (delete_loop file_pattern cutoff deleteFails fs).2)
    else
      (f :: (delete_loop file_pattern cutoff deleteFails fs).1,
       (delete_loop file_pattern cutoff deleteFails fs).2)

/-- `BackupManager._delete_old_files`: the cutoff is computed before the
`try`, so an invalid retention unit propagates out as an exception. -/
def delete_old_files (directory : Fs) (retention : Retention)
    (file_pattern : String) (now : Int) (deleteFails : String → Bool) :
    Except String (Fs × List String) :=
  match calculate_cutoff_time retention now with
  | .error e => .error e
  | .ok cutoff => .ok (delete_loop file_pattern cutoff deleteFails directory)

/-- The local half of `BackupManager._cleanup_old_backups`
(src/main.py lines 214-235): calls `_delete_old_files` with the hardcoded
pattern `*.sql.gz`; its own `try` turns any propagated exception into a
no-op. -/
def cleanup_old_backups_local (directory : Fs) (retention : Retention)
    (now : Int) (deleteFails : String → Bool) : Fs × List String :=
  match delete_old_files directory retention "*.sql.gz" now deleteFails with
  | .ok r => r
  | .error _ => (directory, [])

/-! ### Google Drive listing model

`GoogleDriveManager` methods work on listings of
`{title, modifiedDate}` records returned by the Drive client. -/

/-- One file of a Google Drive folder listing. -/
structure DriveFile where
  title : String
  modifiedDate : String
deriving Repr, DecidableEq

/-- The loop of `BackupManager._cleanup_gdrive_backups`
(src/main.py lines 197-208): same single-`try` structure as the local
sweep, filter is `title.endswith(".sql.gz")`, file time is
`strptime(modifiedDate[:19], ...)` — modelled by the injected total
`parse` function. -/
def cleanup_gdrive_loop (cutoff : Int) (parse : String → Int)
    (deleteFails : String → Bool) : List DriveFile → List DriveFile × List String
  | [] => ([], [])
  | f :: fs =>
    if strEndsWith f.title ".sql.gz" && is_expired (parse f.modifiedDate) cutoff then
      if deleteFails f.title then
        (f :: fs, [])
      else
        ((cleanup_gdrive_loop cutoff parse deleteFails fs).1,
         f.title :: (cleanup_gdrive_loop cutoff parse deleteFails fs).2)
    else
      (f :: (cleanup_gdrive_loop cutoff parse deleteFails fs).1,
       (cleanup_gdrive_loop cutoff parse deleteFails fs).2)

/-- `BackupManager._cleanup_gdrive_backups` (src/main.py lines 176-212):
its `try` also covers the cutoff computation, so an invalid unit is a
no-op here. -/
def cleanup_gdrive_backups (listing : List DriveFile) (retention : Retention)
    (now : Int) (parse : String → Int) (deleteFails : String → Bool) :
    List DriveFile × List String :=
  match calculate_cutoff_time retention now with
  | .error _ => (listing, [])
  | .ok cutoff => cleanup_gdrive_loop cutoff parse deleteFails listing

/-! ### Latest-backup lookup on Google Drive

`GoogleDriveManager.get_latest_backup` (src/google_drive.py lines 157-193)
filters the folder listing to titles ending `.sql.gz`, sorts by
`modifiedDate` with `reverse=True` (Python's sort is stable: among equal
dates the listing order is preserved) and returns the first title.
`sortDesc` below is that stable descending sort. -/

/-- Inserts `f` into a descending-sorted list, before every element whose
date is not strictly greater — exactly where a stable descending sort
places an element that precedes the list's elements in the listing. -/
def insertDesc (f : DriveFile) : List DriveFile → List DriveFile
  | [] => [f]
  | g :: gs =>
    if strLt f.modifiedDate g.modifiedDate then g :: insertDesc f gs
    else f :: g :: gs

/-- `file_list.sort(key=modifiedDate, reverse=True)`: stable descending. -/
def sortDesc : List DriveFile → List DriveFile
  | [] => []
  | f :: fs => insertDesc f (sortDesc fs)

/-- `GoogleDriveManager.get_latest_backup`, given the folder listing
(the Drive calls that produce the listing are the oracle). -/
def get_latest_backup (file_list : List DriveFile) : Option String :=
  match file_list with
  | [] => none
  | _ :: _ =>
    let backup_files := file_list.filter (fun f => strEndsWith f.title ".sql.gz")
    match sortDesc backup_files with
    | [] => none
    | latest :: _ => some latest.title

/-- The element `sortDesc`'s head actually is: the earliest listing entry
whose `modifiedDate` is maximal (later entries replace it only when
strictly greater). -/
def latestFirst : List DriveFile → Option DriveFile
  | [] => none
  | f :: fs =>
    match latestFirst fs with
    | none => some f
    | some g => if strLt f.modifiedDate g.modifiedDate then some g else some f

/-! ### Command runner

`BackupManager._run_command` (src/main.py lines 100-119): `subprocess.run`
with `check=True`; only `CalledProcessError` is caught.  An OS-level
failure to launch the process (`FileNotFoundError` for a missing binary,
`PermissionError`, ...) is not caught and propagates — modelled as the
`.error` branch of the result. -/

/-- Outcome of one `subprocess.run` invocation. -/
inductive ProcOutcome
  | exited (code : Nat) (stdout stderr : String)
  | spawnError (msg : String)
deriving Repr, DecidableEq

/-- `BackupManager._run_command`. -/
def run_command (outcome : ProcOutcome) : Except String (Bool × String) :=
  match outcome with
  | .exited 0 stdout _ => .ok (true, stdout)
  | .exited (_ + 1) _ stderr => .ok (false, "Command failed: " ++ stderr)
  | .spawnError msg => .error msg

/-! ### Backup creation

`BackupManager._compress_file` (src/main.py lines 121-143) and
`BackupManager.create_backup` (lines 237-308). -/

/-- How one `_compress_file` call ends.  `ok`: output written.
`failBeforeOutput`: the raised exception precedes creation of the output
file (the `ValueError` for an unsupported compression format, or failure
to open the input).  `failAfterOutput`: `gzip.open`/`ZipFile` already
created the output file and the failure strikes while writing, leaving a
partial output behind (the `except` clause only logs; nothing deletes
it). -/
inductive CompressOutcome
  | ok
  | failBeforeOutput (msg : String)
  | failAfterOutput (msg : String)
deriving Repr, DecidableEq

/-- `BackupManager._compress_file`: returns `(success, error_message)` and
the directory state after the call. -/
def compress_file (outcome : CompressOutcome) (output_name : String)
    (mtime : Int) (fs : Fs) : (Bool × String) × Fs :=
  match outcome with
  | .ok => ((true, ""), createFile ⟨output_name, mtime⟩ fs)
  | .failBeforeOutput msg => ((false, msg), fs)
  | .failAfterOutput msg => ((false, msg), createFile ⟨output_name, mtime⟩ fs)

/-- The configuration snapshot and clock a `create_backup` run reads:
`db_config["name"]`, the name template, the local retention setting, the
formatted `datetime.now()` timestamp and the same clock as an integer. -/
structure BackupCfg where
  db_name : String
  backup_name_template : String
  retention : Retention
  timestampStr : String
  nowInt : Int

/-- The oracle outcomes of one `create_backup` run: the `pg_dump`
invocation, the compression step, the Google Drive manager
(`none` = integration disabled; `some uploadOk` = present, with the
result `upload_file` returns — `false` covers both a failed upload and a
manager whose Drive initialization failed, src/google_drive.py lines
42-46 and 79-81), and which local `unlink` calls raise during the
retention sweep. -/
structure BackupRunEnv where
  dumpOutcome : ProcOutcome
  compressOutcome : CompressOutcome
  gdriveManager : Option Bool
  deleteFails : String → Bool

/-- The instantiated backup artifact name of a run (src/main.py line 243). -/
def backupName (cfg : BackupCfg) : String :=
  formatTemplate cfg.backup_name_template cfg.db_name cfg.timestampStr

/-- The raw dump file name of a run (src/main.py line 246). -/
def sqlFileName (cfg : BackupCfg) : String :=
  cfg.db_name ++ "_backup_" ++ cfg.timestampStr ++ ".sql"

/-- `BackupManager.create_backup`: returns the value returned to the
caller (`None` on failure), the final local directory, and the list of
artifacts that reached the remote tier.  The `finally` clause (lines
306-308) removes the raw dump on every path; an uncaught exception from
`_run_command` is caught by the outer `except` (line 303) and becomes
`None`. -/
def create_backup (cfg : BackupCfg) (env : BackupRunEnv) (fs0 : Fs) :
    Option String × Fs × List String :=
  let bodyResult : Option String × Fs × List String :=
    match run_command env.dumpOutcome with
    | .error _ => (none, fs0, [])
    | .ok (false, _) => (none, fs0, [])
    | .ok (true, _) =>
      let fs1 := createFile ⟨sqlFileName cfg, cfg.nowInt⟩ fs0
      match compress_file env.compressOutcome (backupName cfg) cfg.nowInt fs1 with
      | ((false, _), fs2) => (none, fs2, [])
      | ((true, _), fs2) =>
        if fileExists (backupName cfg) fs2 then
          let fs3 := removeFile (sqlFileName cfg) fs2
          let remote := match env.gdriveManager with
            | some true => [backupName cfg]
            | _ => []
          let fs4 := (cleanup_old_backups_local fs3 cfg.retention cfg.nowInt
            env.deleteFails).1
          (some (backupName cfg), fs4, remote)
        else
          (none, fs2, [])
  (bodyResult.1, removeFile (sqlFileName cfg) bodyResult.2.1, bodyResult.2.2)

/-! ### Archive content model

For the compression round trip the byte content matters.  A produced
artifact's content is one of: a gzip stream of the raw bytes
(`gzip.open(...).writelines` writes exactly the input bytes into the
stream), a zip archive whose entries are `(arcname, bytes)` pairs
(`zipf.write(input, arcname=basename(input))` stores one entry holding
the input's bytes), or raw bytes.  The gzip/zip encodings themselves live
in Python's standard library and are treated as opaque faithful
containers; everything this repository decides — output naming,
extension dispatch, entry selection — is modelled exactly. -/

/-- Content of a file, as the decompression code can observe it. -/
inductive ArchiveData
  | gzipStream (bytes : List Nat)
  | zipArchive (entries : List (String × List Nat))
  | rawBytes (bytes : List Nat)
deriving Repr, DecidableEq

/-- The content-level half of `BackupManager._compress_file`
(src/main.py lines 128-137): which artifact content each compression
setting produces from the raw file `input_name` holding `input_bytes`.
The zip entry name is `os.path.basename(input_path)` — with flat names,
`input_name` itself. -/
def compress_content (compression : String) (input_name : String)
    (input_bytes : List Nat) : Except String ArchiveData :=
  if compression = "gzip" then .ok (.gzipStream input_bytes)
  else if compression = "zip" then .ok (.zipArchive [(input_name, input_bytes)])
  else .error ("Unsupported compression: " ++ compression)

/-- The first zip entry whose name ends in `.sql`
(the `for name in zipf.namelist()` loop, src/main.py lines 347-354). -/
def firstSqlEntry : List (String × List Nat) → Option (String × List Nat)
  | [] => none
  | e :: es => if strEndsWith e.1 ".sql" then some e else firstSqlEntry es

/-- The decompression section of `BackupManager.restore_backup`
(src/main.py lines 338-356), at the content level: dispatches on the
artifact's final extension and returns the name and bytes of the raw
file it materializes.  `none` models the paths on which no byte-identical
raw file is produced: `gzip.open` failing on non-gzip content, a zip
without a `.sql` entry, and the pass-through branch handing a still-
compressed file on unchanged. -/
def decompress_content (artifact_name : String) (data : ArchiveData) :
    Option (String × List Nat) :=
  if pathSuffix artifact_name = ".gz" then
    match data with
    | .gzipStream bytes => some (dropLastSuffix artifact_name, bytes)
    | _ => none
  else if pathSuffix artifact_name = ".zip" then
    match data with
    | .zipArchive entries => firstSqlEntry entries
    | _ => none
  else
    match data with
    | .rawBytes bytes => some (artifact_name, bytes)
    | _ => none

/-! ### Restore

`BackupManager.restore_backup` (src/main.py lines 310-393).  The local
variable `temp_sql_file` is first assigned at line 335, after the
artifact-resolution check at lines 327-329; the `finally` clause at lines
391-393 reads it on every exit path.  Python semantics: a `return`
executed before line 335 reaches the `finally` with `temp_sql_file`
unbound, the `finally` raises `UnboundLocalError`, the pending return
value is discarded, and the exception propagates to the caller (an
exception raised in `finally` is not caught by the same `try`'s
`except`). -/

/-- An exception escaping `restore_backup` to its caller. -/
inductive PyError
  | unboundLocal (varName : String)
deriving Repr, DecidableEq

/-- Oracles of one `restore_backup` run: whether the Drive manager is
present, what `get_latest_backup` and `download_file` return, whether
`zipfile.ZipFile` opens the archive, the archive's entry names, whether
gzip extraction succeeds, and the `psql` invocation's outcome. -/
structure RestoreEnv where
  gdrivePresent : Bool
  gdriveLatest : Option String
  downloadResult : Option String
  zipOpenOk : Bool
  zipNames : List String
  gzipOk : Bool
  psqlOutcome : ProcOutcome

/-- Artifact resolution (src/main.py lines 315-325): when no file was
given and the Drive manager exists, look up the latest remote backup and
download it into the local directory (`download_file` writes the local
copy only when it succeeds).  `if backup_file:` is Python truthiness, so
an empty-string title skips the download. -/
def resolveBackupFile (env : RestoreEnv) (fs0 : Fs)
    (backup_file_arg : Option String) : Option String × Fs :=
  match backup_file_arg with
  | some _ => (backup_file_arg, fs0)
  | none =>
    if env.gdrivePresent then
      match env.gdriveLatest with
      | none => (none, fs0)
      | some latest =>
        if latest = "" then (some "", fs0)
        else
          match env.downloadResult with
          | some p => (some p, createFile ⟨p, 0⟩ fs0)
          | none => (none, fs0)
    else (none, fs0)

/-- The first zip entry name ending `.sql` (names only, for the restore
state model; `firstSqlEntry` is its content-level sibling). -/
def firstSqlName : List String → Option String
  | [] => none
  | n :: ns => if strEndsWith n ".sql" then some n else firstSqlName ns

/-- The tail of the `try` body once `temp_sql_file` is bound (src/main.py
lines 358-386): the existence check on the decompressed file, then the
`psql` invocation.  Returns (value `return`ed, directory, binding of
`temp_sql_file`).  A `spawnError` from `_run_command` is caught by the
`except` at line 388 and becomes `False`. -/
def afterDecompress (env : RestoreEnv) (fs : Fs) (temp : Option String) :
    Bool × Fs × Option String :=
  match temp with
  | none => (false, fs, none)
  | some t =>
    if t = "" || !(fileExists t fs) then (false, fs, some t)
    else
      match run_command env.psqlOutcome with
      | .ok (true, _) => (true, fs, some t)
      | .ok (false, _) => (false, fs, some t)
      | .error _ => (false, fs, some t)

/-- The decompression dispatch (src/main.py lines 338-356) on the state
level.  In the `.gz` branch `temp_sql_file` is assigned before extraction
starts and `open(temp_sql_file, "wb")` creates the output, so a failed
extraction still leaves a (partial) temp file for the `finally` clause to
remove.  In the `.zip` branch a failure to open the archive leaves
`temp_sql_file = None`.  Any other extension makes `temp_sql_file` alias
the original backup file itself (line 356). -/
def restoreBody (env : RestoreEnv) (fs : Fs) (name : String) :
    Bool × Fs × Option String :=
  if pathSuffix name = ".gz" then
    let temp := dropLastSuffix name
    let fs1 := createFile ⟨temp, 0⟩ fs
    if env.gzipOk then afterDecompress env fs1 (some temp)
    else (false, fs1, some temp)
  else if pathSuffix name = ".zip" then
    if env.zipOpenOk then
      match firstSqlName env.zipNames with
      | some entry => afterDecompress env (createFile ⟨entry, 0⟩ fs) (some entry)
      | none => afterDecompress env fs none
    else (false, fs, none)
  else
    afterDecompress env fs (some name)

/-- `BackupManager.restore_backup`: result delivered to the caller
(`.error` = exception past the call boundary) and the final local
directory, after the `finally` clause ran. -/
def restore_backup (env : RestoreEnv) (fs0 : Fs)
    (backup_file_arg : Option String) : Except PyError Bool × Fs :=
  let resolved := resolveBackupFile env fs0 backup_file_arg
  match resolved.1 with
  | none => (.error (.unboundLocal "temp_sql_file"), resolved.2)
  | some name =>
    if name = "" || !(fileExists name resolved.2) then
      (.error (.unboundLocal "temp_sql_file"), resolved.2)
    else
      let r := restoreBody env resolved.2 name
      match r.2.2 with
      | none => (.ok r.1, r.2.1)
      | some t =>
        if fileExists t r.2.1 then (.ok r.1, removeFile t r.2.1)
        else (.ok r.1, r.2.1)

/-! ### Helper lemmas -/

theorem globMatches_star_sql_gz (name : String) :
    globMatches "*.sql.gz" name = strEndsWith name ".sql.gz" := rfl

theorem fileExists_of_mem (f : LocalFile) (fs : Fs) (hf : f ∈ fs) :
    fileExists f.name fs = true := by
  simp only [fileExists, List.any_eq_true]
  exact ⟨f, hf, by simp⟩

/-- With no failing `unlink`, no expired pattern-matching file survives
the sweep loop. -/
theorem delete_loop_clears (pat : String) (cutoff : Int) (df : String → Bool)
    (hdf : ∀ n, df n = false) (fs : Fs) :
    ∀ g ∈ (delete_loop pat cutoff df fs).1,
      (globMatches pat g.name && is_expired g.mtime cutoff) = false := by
  induction fs with
  | nil => intro g hg; simp [delete_loop] at hg
  | cons f fs ih =>
    intro g hg
    simp only [delete_loop] at hg
    by_cases hc : (globMatches pat f.name && is_expired f.mtime cutoff) = true
    · rw [if_pos hc, hdf f.name] at hg
      simp only [if_neg Bool.false_ne_true] at hg
      exact ih g hg
    · rw [if_neg hc] at hg
      rcases List.mem_cons.mp hg with rfl | hg
      · exact Bool.not_eq_true _ ▸ (Bool.eq_false_iff.mpr hc)
      · exact ih g hg

/-- A file that is not an expired match survives the sweep loop, whatever
the deletion failures. -/
theorem delete_loop_keeps (pat : String) (cutoff : Int) (df : String → Bool)
    (fs : Fs) (g : LocalFile) (hg : g ∈ fs)
    (h : (globMatches pat g.name && is_expired g.mtime cutoff) = false) :
    g ∈ (delete_loop pat cutoff df fs).1 := by
  induction fs with
  | nil => cases hg
  | cons f fs ih =>
    simp only [delete_loop]
    rcases List.mem_cons.mp hg with rfl | hg'
    · rw [if_neg (by simp [h])]
      exact List.mem_cons_self _ _
    · by_cases hc : (globMatches pat f.name && is_expired f.mtime cutoff) = true
      · rw [if_pos hc]
        by_cases hdel : df f.name = true
        · rw [if_pos hdel]; exact hg
        · rw [if_neg hdel]; exact ih hg'
      · rw [if_neg hc]
        exact List.mem_cons_of_mem _ (ih hg')

/-- A failing `unlink` aborts the sweep loop: everything from the failing
file on survives untouched and the deletions stop with the clean part
before it. -/
theorem delete_loop_abort (pat : String) (cutoff : Int) (df : String → Bool)
    (pre post : Fs) (f : LocalFile)
    (hpre : ∀ g ∈ pre, df g.name = false)
    (hf : (globMatches pat f.name && is_expired f.mtime cutoff) = true)
    (hdf : df f.name = true) :
    (delete_loop pat cutoff df (pre ++ f :: post)).1 =
      (delete_loop pat cutoff df pre).1 ++ f :: post ∧
    (delete_loop pat cutoff df (pre ++ f :: post)).2 =
      (delete_loop pat cutoff df pre).2 := by
  induction pre with
  | nil => simp [delete_loop, hf, hdf]
  | cons g pre ih =>
    have hg : df g.name = false := hpre g (List.mem_cons_self _ _)
    have ih' := ih (fun x hx => hpre x (List.mem_cons_of_mem _ hx))
    by_cases hc : (globMatches pat g.name && is_expired g.mtime cutoff) = true
    · simp only [List.cons_append, delete_loop, if_pos hc, hg,
        if_neg Bool.false_ne_true]
      exact ⟨ih'.1, congrArg (List.cons g.name) ih'.2⟩
    · simp only [List.cons_append, delete_loop, if_neg hc]
      exact ⟨congrArg (List.cons g) ih'.1, ih'.2⟩

/-- Drive-side sibling of `delete_loop_clears`. -/
theorem gdrive_loop_clears (cutoff : Int) (parse : String → Int)
    (df : String → Bool) (hdf : ∀ n, df n = false) (l : List DriveFile) :
    ∀ d ∈ (cleanup_gdrive_loop cutoff parse df l).1,
      (strEndsWith d.title ".sql.gz" && is_expired (parse d.modifiedDate) cutoff)
        = false := by
  induction l with
  | nil => intro d hd; simp [cleanup_gdrive_loop] at hd
  | cons f fs ih =>
    intro d hd
    simp only [cleanup_gdrive_loop] at hd
    by_cases hc :
        (strEndsWith f.title ".sql.gz" && is_expired (parse f.modifiedDate) cutoff)
          = true
    · rw [if_pos hc, hdf f.title] at hd
      simp only [if_neg Bool.false_ne_true] at hd
      exact ih d hd
    · rw [if_neg hc] at hd
      rcases List.mem_cons.mp hd with rfl | hd
      · exact Bool.not_eq_true _ ▸ (Bool.eq_false_iff.mpr hc)
      · exact ih d hd

/-- Drive-side sibling of `delete_loop_keeps`. -/
theorem gdrive_loop_keeps (cutoff : Int) (parse : String → Int)
    (df : String → Bool) (l : List DriveFile) (d : DriveFile) (hd : d ∈ l)
    (h : (strEndsWith d.title ".sql.gz" && is_expired (parse d.modifiedDate) cutoff)
      = false) :
    d ∈ (cleanup_gdrive_loop cutoff parse df l).1 := by
  induction l with
  | nil => cases hd
  | cons f fs ih =>
    simp only [cleanup_gdrive_loop]
    rcases List.mem_cons.mp hd with rfl | hd'
    · rw [if_neg (by simp [h])]
      exact List.mem_cons_self _ _
    · by_cases hc :
          (strEndsWith f.title ".sql.gz" && is_expired (parse f.modifiedDate) cutoff)
            = true
      · rw [if_pos hc]
        by_cases hdel : df f.title = true
        · rw [if_pos hdel]; exact hd
        · rw [if_neg hdel]; exact ih hd'
      · rw [if_neg hc]
        exact List.mem_cons_of_mem _ (ih hd')

/-- Every cutoff `calculate_cutoff_time` can return lies at or before the
reference clock. -/
theorem cutoff_le_now (r : Retention) (now cutoff : Int)
    (h : calculate_cutoff_time r now = .ok cutoff) : cutoff ≤ now := by
  unfold calculate_cutoff_time at h
  split_ifs at h <;> injection h with h' <;> omega

/-- A file whose modification time is at or after the reference clock
survives the local cleanup, whatever the retention setting and deletion
failures. -/
theorem cleanup_local_keeps_fresh (dir : Fs) (r : Retention) (now : Int)
    (df : String → Bool) (g : LocalFile) (hg : g ∈ dir)
    (hfresh : now ≤ g.mtime) :
    g ∈ (cleanup_old_backups_local dir r now df).1 := by
  unfold cleanup_old_backups_local delete_old_files
  cases hcut : calculate_cutoff_time r now with
  | error e => simpa using hg
  | ok cutoff =>
    have hc := cutoff_le_now r now cutoff hcut
    have hexp : is_expired g.mtime cutoff = false := by
      simp only [is_expired, decide_eq_false_iff_not, not_lt]
      omega
    exact delete_loop_keeps _ _ _ _ _ hg (by simp [hexp])

theorem insertDesc_head (f : DriveFile) (l : List DriveFile) :
    (insertDesc f l).head? =
      some (match l.head? with
            | none => f
            | some g => if strLt f.modifiedDate g.modifiedDate then g else f) := by
  cases l with
  | nil => rfl
  | cons g gs =>
    simp only [insertDesc, List.head?]
    by_cases h : strLt f.modifiedDate g.modifiedDate <;> simp [h]

/-- The head of the stable descending sort is the earliest listing entry
with the maximal date. -/
theorem sortDesc_head (l : List DriveFile) :
    (sortDesc l).head? = latestFirst l := by
  induction l with
  | nil => rfl
  | cons f fs ih =>
    simp only [sortDesc, latestFirst, insertDesc_head, ← ih]
    cases h : (sortDesc fs).head? with
    | none => simp [h]
    | some g =>
      by_cases hc : strLt f.modifiedDate g.modifiedDate <;> simp [h, hc]

/-! ### Claim theorems -/

/-- Claim C4: for every retention window with unit in
minutes/hours/days and every reference clock, the cutoff equals
`clock - duration(window)`; a file is deleted by the sweep exactly when
its modification time is strictly below the cutoff, and a file exactly at
the cutoff is retained. -/
theorem claim_C4 (r : Retention) (now t : Int) (f : LocalFile)
    (h : strLower r.unit = "minutes" ∨ strLower r.unit = "hours" ∨
      strLower r.unit = "days") :
    calculate_cutoff_time r now = .ok (now - duration_seconds r) ∧
    (is_expired t (now - duration_seconds r) = true ↔
      t < now - duration_seconds r) ∧
    (f.mtime = now - duration_seconds r →
      delete_loop "*.sql.gz" (now - duration_seconds r) (fun _ => false) [f]
        = ([f], [])) ∧
    (strEndsWith f.name ".sql.gz" = true →
      is_expired f.mtime (now - duration_seconds r) = true →
      delete_loop "*.sql.gz" (now - duration_seconds r) (fun _ => false) [f]
        = ([], [f.name])) := by
  refine ⟨?_, by simp [is_expired], ?_, ?_⟩
  · rcases h with h | h | h <;> simp [calculate_cutoff_time, duration_seconds, h]
  · intro he
    simp [delete_loop, is_expired, he]
  · intro h1 h2
    simp [delete_loop, globMatches_star_sql_gz, h1, h2]

/-- Witness for C4 at a concrete 48-hour window: the cutoff is the clock
minus 172800 seconds, and a backup whose modification time equals the
cutoff survives the sweep. -/
theorem claim_C4_witness :
    (strLower (Retention.mk "hours" 48).unit = "minutes" ∨
      strLower (Retention.mk "hours" 48).unit = "hours" ∨
      strLower (Retention.mk "hours" 48).unit = "days") ∧
    calculate_cutoff_time ⟨"hours", 48⟩ 1000000 =
      .ok (1000000 - duration_seconds ⟨"hours", 48⟩) ∧
    delete_loop "*.sql.gz" (1000000 - duration_seconds ⟨"hours", 48⟩)
        (fun _ => false) [⟨"db_backup_x.sql.gz", 827200⟩]
      = ([⟨"db_backup_x.sql.gz", 827200⟩], []) :=
  ⟨by decide,
   (claim_C4 ⟨"hours", 48⟩ 1000000 0 ⟨"db_backup_x.sql.gz", 827200⟩ (by decide)).1,
   (claim_C4 ⟨"hours", 48⟩ 1000000 0 ⟨"db_backup_x.sql.gz", 827200⟩
     (by decide)).2.2.1 (by decide)⟩

/-- Claim C6 (counterexample): ties on the maximal `modifiedDate` are
broken by listing order, not by lexical order of the name — a listing
holding `c.sql.gz` before `b.sql.gz`, both at the same date, yields
`c.sql.gz`, while the claimed lexical tie-break would yield `b.sql.gz`. -/
theorem claim_C6_counterexample :
    get_latest_backup [⟨"c.sql.gz", "2021-01-01T00:00:05"⟩,
        ⟨"b.sql.gz", "2021-01-01T00:00:05"⟩] = some "c.sql.gz" ∧
    get_latest_backup [⟨"c.sql.gz", "2021-01-01T00:00:05"⟩,
        ⟨"b.sql.gz", "2021-01-01T00:00:05"⟩] ≠ some "b.sql.gz" := by
  exact ⟨rfl, by decide⟩

/-- Claim C6 (amended): `get_latest_backup` returns the title of the
artifact with the greatest `modifiedDate` among those ending `.sql.gz`
(the filter is fixed, not a parameter), with ties broken in favour of the
entry that comes first in the listing; over the spec's example listing
`[a@1, b@5, c@5]` it does return `b`. -/
theorem claim_C6_amended :
    (∀ l : List DriveFile,
      get_latest_backup l =
        (latestFirst (l.filter (fun f => strEndsWith f.title ".sql.gz"))).map
          DriveFile.title) ∧
    get_latest_backup [⟨"a.sql.gz", "2021-01-01T00:00:01"⟩,
        ⟨"b.sql.gz", "2021-01-01T00:00:05"⟩,
        ⟨"c.sql.gz", "2021-01-01T00:00:05"⟩] = some "b.sql.gz" := by
  constructor
  · intro l
    cases l with
    | nil => rfl
    | cons f fs =>
      simp only [get_latest_backup]
      rw [← sortDesc_head]
      cases h : sortDesc ((f :: fs).filter (fun f => strEndsWith f.title ".sql.gz"))
        <;> simp [h]
  · rfl

/-- Claim C7 (counterexample): `_run_command` catches only
`CalledProcessError`; an OS-level failure to launch the process — a
missing binary — propagates past the boundary instead of being returned
as `(false, output)`. -/
theorem claim_C7_counterexample :
    run_command (.spawnError "FileNotFoundError: no such file: pg_dump") =
      .error "FileNotFoundError: no such file: pg_dump" := rfl

/-- Claim C7 (amended): when the external process launches, `_run_command`
never raises: exit code zero yields `(True, stdout)` and a non-zero exit
yields `(False, message embedding the captured stderr)`; but an OS-level
spawn failure (missing binary, permission error) raises past the
boundary. -/
theorem claim_C7_amended (stdout stderr msg : String) (n : Nat) :
    run_command (.exited 0 stdout stderr) = .ok (true, stdout) ∧
    run_command (.exited (n + 1) stdout stderr) =
      .ok (false, "Command failed: " ++ stderr) ∧
    run_command (.spawnError msg) = .error msg :=
  ⟨rfl, rfl, rfl⟩

/-- Claim C8 (counterexample): both files are expired matches, deleting
the first raises, and the sweep aborts — the second file is never
attempted (it survives) and nothing is recorded as deleted, while the
claim requires the sweep to continue with it. -/
theorem claim_C8_counterexample :
    delete_loop "*.sql.gz" 1 (fun n => n = "a.sql.gz")
        [⟨"a.sql.gz", 0⟩, ⟨"b.sql.gz", 0⟩] =
      ([⟨"a.sql.gz", 0⟩, ⟨"b.sql.gz", 0⟩], []) ∧
    is_expired (0 : Int) 1 = true := by
  exact ⟨rfl, rfl⟩

/-- Claim C8 (amended): deletions are not best-effort — the single `try`
around the sweep loop makes the first failing `unlink` abort the
remainder: every file from the failing one on survives untouched and the
deletions performed are exactly those of the clean portion before it;
no count of deletions is computed or returned by `_delete_old_files`. -/
theorem claim_C8_amended (pat : String) (retention : Retention)
    (now cutoff : Int) (df : String → Bool) (pre post : Fs) (f : LocalFile)
    (hcut : calculate_cutoff_time retention now = .ok cutoff)
    (hpre : ∀ g ∈ pre, df g.name = false)
    (hf : (globMatches pat f.name && is_expired f.mtime cutoff) = true)
    (hdf : df f.name = true) :
    delete_old_files (pre ++ f :: post) retention pat now df =
      .ok ((delete_loop pat cutoff df pre).1 ++ f :: post,
           (delete_loop pat cutoff df pre).2) := by
  have h := delete_loop_abort pat cutoff df pre post f hpre hf hdf
  simp only [delete_old_files, hcut]
  exact congrArg Except.ok (Prod.ext_iff.mpr h)

/-- Witness for the amended C8: a clean expired file before the failing
one is deleted, the failing file and everything after it survive. -/
theorem claim_C8_witness :
    calculate_cutoff_time ⟨"hours", 1⟩ 7200 = .ok 3600 ∧
    (∀ g ∈ [(LocalFile.mk "p.sql.gz" 0)],
      (fun n => decide (n = "a.sql.gz")) g.name = false) ∧
    (globMatches "*.sql.gz" (LocalFile.mk "a.sql.gz" 0).name &&
      is_expired (LocalFile.mk "a.sql.gz" 0).mtime 3600) = true ∧
    (fun n => decide (n = "a.sql.gz")) (LocalFile.mk "a.sql.gz" 0).name = true ∧
    delete_old_files
        ([⟨"p.sql.gz", 0⟩] ++ (⟨"a.sql.gz", 0⟩ : LocalFile) ::
          [⟨"b.sql.gz", 0⟩, ⟨"keep.sql.gz", 9999⟩])
        ⟨"hours", 1⟩ "*.sql.gz" 7200 (fun n => decide (n = "a.sql.gz")) =
      .ok ((delete_loop "*.sql.gz" 3600 (fun n => decide (n = "a.sql.gz"))
              [⟨"p.sql.gz", 0⟩]).1 ++
            (⟨"a.sql.gz", 0⟩ : LocalFile) :: [⟨"b.sql.gz", 0⟩, ⟨"keep.sql.gz", 9999⟩],
           (delete_loop "*.sql.gz" 3600 (fun n => decide (n = "a.sql.gz"))
              [⟨"p.sql.gz", 0⟩]).2) :=
  ⟨rfl, by decide, by decide, by decide,
   claim_C8_amended "*.sql.gz" ⟨"hours", 1⟩ 7200 3600
     (fun n => decide (n = "a.sql.gz")) [⟨"p.sql.gz", 0⟩]
     [⟨"b.sql.gz", 0⟩, ⟨"keep.sql.gz", 9999⟩] ⟨"a.sql.gz", 0⟩
     rfl (by decide) (by decide) (by decide)⟩

/-- Claim C2 (counterexample): an artifact named with the zip-format
extension `sql.zip`, already long past the cutoff, survives the local
retention sweep untouched — the sweep only globs `*.sql.gz`, so the
claimed deletion of expired artifacts of both formats fails. -/
theorem claim_C2_counterexample :
    cleanup_old_backups_local [⟨"db_backup_2024-01-01_00-00-00.sql.zip", 0⟩]
        ⟨"hours", 48⟩ 1000000 (fun _ => false) =
      ([⟨"db_backup_2024-01-01_00-00-00.sql.zip", 0⟩], []) ∧
    is_expired (0 : Int) (1000000 - duration_seconds ⟨"hours", 48⟩) = true := by
  exact ⟨rfl, rfl⟩

/-- Claim C2 (amended): with a valid retention unit and no failing
deletions, each sweep (local and Google Drive) deletes every expired
artifact whose name ends in `.sql.gz`; an artifact whose name does not
end in `.sql.gz` — in particular a `.sql.zip` one — is never deleted by
either sweep. -/
theorem claim_C2_amended (dirFiles : Fs) (listing : List DriveFile)
    (retention gret : Retention) (now cutoff gcutoff : Int)
    (parse : String → Int) (df : String → Bool)
    (hdf : ∀ n, df n = false)
    (hcut : calculate_cutoff_time retention now = .ok cutoff)
    (hgcut : calculate_cutoff_time gret now = .ok gcutoff) :
    (∀ g ∈ (cleanup_old_backups_local dirFiles retention now df).1,
      (strEndsWith g.name ".sql.gz" && is_expired g.mtime cutoff) = false) ∧
    (∀ g ∈ dirFiles, strEndsWith g.name ".sql.gz" = false →
      g ∈ (cleanup_old_backups_local dirFiles retention now df).1) ∧
    (∀ d ∈ (cleanup_gdrive_backups listing gret now parse df).1,
      (strEndsWith d.title ".sql.gz" &&
        is_expired (parse d.modifiedDate) gcutoff) = false) ∧
    (∀ d ∈ listing, strEndsWith d.title ".sql.gz" = false →
      d ∈ (cleanup_gdrive_backups listing gret now parse df).1) := by
  have hloc : cleanup_old_backups_local dirFiles retention now df =
      delete_loop "*.sql.gz" cutoff df dirFiles := by
    simp [cleanup_old_backups_local, delete_old_files, hcut]
  have hgd : cleanup_gdrive_backups listing gret now parse df =
      cleanup_gdrive_loop gcutoff parse df listing := by
    simp [cleanup_gdrive_backups, hgcut]
  refine ⟨?_, ?_, ?_, ?_⟩
  · intro g hg
    rw [hloc] at hg
    have := delete_loop_clears "*.sql.gz" cutoff df hdf dirFiles g hg
    rwa [globMatches_star_sql_gz] at this
  · intro g hg hng
    rw [hloc]
    exact delete_loop_keeps _ _ _ _ _ hg
      (by rw [globMatches_star_sql_gz, hng, Bool.false_and])
  · intro d hd
    rw [hgd] at hd
    exact gdrive_loop_clears gcutoff parse df hdf listing d hd
  · intro d hd hnd
    rw [hgd]
    exact gdrive_loop_keeps _ _ _ _ _ hd (by rw [hnd, Bool.false_and])

/-- Witness for the amended C2 on concrete one-file tiers: the expired
`.sql.gz` artifacts are swept from both tiers and the `.sql.zip` one
stays. -/
theorem claim_C2_witness :
    (∀ n : String, (fun _ => false) n = false) ∧
    calculate_cutoff_time ⟨"hours", 48⟩ 1000000 = .ok 827200 ∧
    calculate_cutoff_time ⟨"days", 3⟩ 1000000 = .ok 740800 ∧
    (∀ g ∈ (cleanup_old_backups_local
        [⟨"old.sql.gz", 0⟩, ⟨"db_backup_2024-01-01_00-00-00.sql.zip", 0⟩]
        ⟨"hours", 48⟩ 1000000 (fun _ => false)).1,
      (strEndsWith g.name ".sql.gz" && is_expired g.mtime 827200) = false) ∧
    (∀ g ∈ [(LocalFile.mk "old.sql.gz" 0),
        ⟨"db_backup_2024-01-01_00-00-00.sql.zip", 0⟩],
      strEndsWith g.name ".sql.gz" = false →
      g ∈ (cleanup_old_backups_local
        [⟨"old.sql.gz", 0⟩, ⟨"db_backup_2024-01-01_00-00-00.sql.zip", 0⟩]
        ⟨"hours", 48⟩ 1000000 (fun _ => false)).1) :=
  ⟨fun _ => rfl, rfl, rfl,
   (claim_C2_amended
      [⟨"old.sql.gz", 0⟩, ⟨"db_backup_2024-01-01_00-00-00.sql.zip", 0⟩]
      [] ⟨"hours", 48⟩ ⟨"days", 3⟩ 1000000 827200 740800 (fun _ => 0)
      (fun _ => false) (fun _ => rfl) rfl rfl).1,
   (claim_C2_amended
      [⟨"old.sql.gz", 0⟩, ⟨"db_backup_2024-01-01_00-00-00.sql.zip", 0⟩]
      [] ⟨"hours", 48⟩ ⟨"days", 3⟩ 1000000 827200 740800 (fun _ => 0)
      (fun _ => false) (fun _ => rfl) rfl rfl).2.1⟩

/-- Claim C1 (counterexample): the dump succeeds and compression fails
after `gzip.open`/`ZipFile` created the output file (e.g. the disk fills
while writing); `create_backup` returns `None`, yet the file bearing this
run's instantiated backup-template name is still present in the local
directory afterwards — nothing in the failure path deletes it. -/
theorem claim_C1_counterexample :
    (create_backup
        ⟨"mydb", "\x7bdb_name\x7d_backup_\x7btimestamp\x7d.sql.gz",
          ⟨"hours", 48⟩, "2024-01-01_00-00-00", 1000000⟩
        ⟨.exited 0 "" "", .failAfterOutput "disk full", none, fun _ => false⟩
        []).1 = none ∧
    fileExists "mydb_backup_2024-01-01_00-00-00.sql.gz"
      (create_backup
        ⟨"mydb", "\x7bdb_name\x7d_backup_\x7btimestamp\x7d.sql.gz",
          ⟨"hours", 48⟩, "2024-01-01_00-00-00", 1000000⟩
        ⟨.exited 0 "" "", .failAfterOutput "disk full", none, fun _ => false⟩
        []).2.1 = true := by
  exact ⟨rfl, rfl⟩

/-- Claim C1 (amended): whenever the compression step fails,
`create_backup` returns `None` and the raw dump file is discarded (the
`finally` clause removes it on every path); the run's template-named
artifact is additionally absent afterwards when the compression failure
precedes creation of the output file (unsupported format, unreadable
input) — but a failure while writing may leave a partial template-named
file behind. -/
theorem claim_C1_amended (cfg : BackupCfg) (env : BackupRunEnv) (fs0 : Fs)
    (stdout stderr msg : String)
    (hdump : env.dumpOutcome = .exited 0 stdout stderr)
    (hcomp : env.compressOutcome = .failBeforeOutput msg ∨
      env.compressOutcome = .failAfterOutput msg) :
    (create_backup cfg env fs0).1 = none ∧
    fileExists (sqlFileName cfg) (create_backup cfg env fs0).2.1 = false ∧
    (env.compressOutcome = .failBeforeOutput msg →
      fileExists (backupName cfg) fs0 = false →
      fileExists (backupName cfg) (create_backup cfg env fs0).2.1 = false) := by
  rcases hcomp with h | h
  · simp only [create_backup, hdump, run_command, h, compress_file]
    refine ⟨by simp, by simp [fileExists_removeFile], ?_⟩
    intro _ hpre
    by_cases he : backupName cfg = sqlFileName cfg
    · simp [fileExists_removeFile, he]
    · simp [fileExists_removeFile, fileExists_createFile, he, hpre]
  · simp only [create_backup, hdump, run_command, h, compress_file]
    refine ⟨by simp, by simp [fileExists_removeFile], ?_⟩
    intro habs
    exact absurd habs (by simp)

/-- Witness for the amended C1: an unsupported compression format fails
before any output exists; the run returns `None` and neither the raw
dump nor any template-named file is left behind. -/
theorem claim_C1_witness :
    (BackupRunEnv.mk (.exited 0 "" "")
        (.failBeforeOutput "Unsupported compression: rar") none
        (fun _ => false)).dumpOutcome = .exited 0 "" "" ∧
    ((BackupRunEnv.mk (.exited 0 "" "")
        (.failBeforeOutput "Unsupported compression: rar") none
        (fun _ => false)).compressOutcome =
          .failBeforeOutput "Unsupported compression: rar" ∨
     (BackupRunEnv.mk (.exited 0 "" "")
        (.failBeforeOutput "Unsupported compression: rar") none
        (fun _ => false)).compressOutcome =
          .failAfterOutput "Unsupported compression: rar") ∧
    (create_backup
        ⟨"mydb", "\x7bdb_name\x7d_backup_\x7btimestamp\x7d.sql.gz",
          ⟨"hours", 48⟩, "2024-01-01_00-00-00", 1000000⟩
        ⟨.exited 0 "" "", .failBeforeOutput "Unsupported compression: rar",
          none, fun _ => false⟩ []).1 = none ∧
    fileExists
      (sqlFileName ⟨"mydb", "\x7bdb_name\x7d_backup_\x7btimestamp\x7d.sql.gz",
        ⟨"hours", 48⟩, "2024-01-01_00-00-00", 1000000⟩)
      (create_backup
        ⟨"mydb", "\x7bdb_name\x7d_backup_\x7btimestamp\x7d.sql.gz",
          ⟨"hours", 48⟩, "2024-01-01_00-00-00", 1000000⟩
        ⟨.exited 0 "" "", .failBeforeOutput "Unsupported compression: rar",
          none, fun _ => false⟩ []).2.1 = false :=
  ⟨rfl, Or.inl rfl,
   (claim_C1_amended _ _ [] "" "" "Unsupported compression: rar" rfl
     (Or.inl rfl)).1,
   (claim_C1_amended _ _ [] "" "" "Unsupported compression: rar" rfl
     (Or.inl rfl)).2.1⟩

/-- Claim C9: when the dump and compression succeed and the remote tier
fails (a manager whose Drive initialization failed, or whose upload
returns failure — `upload_file` is `False` either way), `create_backup`
still returns the run's local artifact name, the artifact is present in
the local directory afterwards, and nothing reached the remote tier; no
exception crosses to the caller (the model is a total function). -/
theorem claim_C9 (cfg : BackupCfg) (env : BackupRunEnv) (fs0 : Fs)
    (stdout stderr : String)
    (hdump : env.dumpOutcome = .exited 0 stdout stderr)
    (hcomp : env.compressOutcome = .ok)
    (hgd : env.gdriveManager = some false)
    (hname : backupName cfg ≠ sqlFileName cfg) :
    (create_backup cfg env fs0).1 = some (backupName cfg) ∧
    fileExists (backupName cfg) (create_backup cfg env fs0).2.1 = true ∧
    (create_backup cfg env fs0).2.2 = [] := by
  have hmem1 : (⟨backupName cfg, cfg.nowInt⟩ : LocalFile) ∈
      createFile ⟨backupName cfg, cfg.nowInt⟩
        (createFile ⟨sqlFileName cfg, cfg.nowInt⟩ fs0) :=
    List.mem_cons_self _ _
  have hmem2 : (⟨backupName cfg, cfg.nowInt⟩ : LocalFile) ∈
      removeFile (sqlFileName cfg)
        (createFile ⟨backupName cfg, cfg.nowInt⟩
          (createFile ⟨sqlFileName cfg, cfg.nowInt⟩ fs0)) :=
    List.mem_filter.mpr ⟨hmem1, by simp [hname]⟩
  have hmem3 := cleanup_local_keeps_fresh _ cfg.retention cfg.nowInt
    env.deleteFails _ hmem2 (le_refl _)
  have hex := fileExists_of_mem _ _ hmem3
  simp only [create_backup, hdump, run_command, hcomp, compress_file, hgd,
    fileExists_createFile]
  refine ⟨by simp, ?_, by simp⟩
  simp [fileExists_removeFile, hname, hex]

/-- Witness for C9: a concrete run with the Drive manager present but
failing still returns and keeps the local artifact, and uploads
nothing. -/
theorem claim_C9_witness :
    (BackupRunEnv.mk (.exited 0 "" "") .ok (some false)
        (fun _ => false)).dumpOutcome = .exited 0 "" "" ∧
    (BackupRunEnv.mk (.exited 0 "" "") .ok (some false)
        (fun _ => false)).compressOutcome = .ok ∧
    (BackupRunEnv.mk (.exited 0 "" "") .ok (some false)
        (fun _ => false)).gdriveManager = some false ∧
    backupName ⟨"mydb", "\x7bdb_name\x7d_backup_\x7btimestamp\x7d.sql.gz",
        ⟨"hours", 48⟩, "2024-01-01_00-00-00", 1000000⟩ ≠
      sqlFileName ⟨"mydb", "\x7bdb_name\x7d_backup_\x7btimestamp\x7d.sql.gz",
        ⟨"hours", 48⟩, "2024-01-01_00-00-00", 1000000⟩ ∧
    (create_backup
        ⟨"mydb", "\x7bdb_name\x7d_backup_\x7btimestamp\x7d.sql.gz",
          ⟨"hours", 48⟩, "2024-01-01_00-00-00", 1000000⟩
        ⟨.exited 0 "" "", .ok, some false, fun _ => false⟩ []).1 =
      some (backupName ⟨"mydb",
        "\x7bdb_name\x7d_backup_\x7btimestamp\x7d.sql.gz",
        ⟨"hours", 48⟩, "2024-01-01_00-00-00", 1000000⟩) ∧
    fileExists (backupName ⟨"mydb",
        "\x7bdb_name\x7d_backup_\x7btimestamp\x7d.sql.gz",
        ⟨"hours", 48⟩, "2024-01-01_00-00-00", 1000000⟩)
      (create_backup
        ⟨"mydb", "\x7bdb_name\x7d_backup_\x7btimestamp\x7d.sql.gz",
          ⟨"hours", 48⟩, "2024-01-01_00-00-00", 1000000⟩
        ⟨.exited 0 "" "", .ok, some false, fun _ => false⟩ []).2.1 = true ∧
    (create_backup
        ⟨"mydb", "\x7bdb_name\x7d_backup_\x7btimestamp\x7d.sql.gz",
          ⟨"hours", 48⟩, "2024-01-01_00-00-00", 1000000⟩
        ⟨.exited 0 "" "", .ok, some false, fun _ => false⟩ []).2.2 = [] :=
  ⟨rfl, rfl, rfl, by decide,
   (claim_C9 _ _ [] "" "" rfl rfl rfl (by decide)).1,
   (claim_C9 _ _ [] "" "" rfl rfl rfl (by decide)).2.1,
   (claim_C9 _ _ [] "" "" rfl rfl rfl (by decide)).2.2⟩

/-- Claim C5: compressing a raw file and decompressing the produced
artifact yields byte-identical content, for both formats, given the
naming the system itself uses — the artifact carries the format's
extension (`.gz` / `.zip` as its final suffix) and the raw dump name ends
in `.sql` (which the zip entry lookup requires). -/
theorem claim_C5 (raw_name gz_name zip_name : String) (bytes : List Nat)
    (hgz : pathSuffix gz_name = ".gz")
    (hzip : pathSuffix zip_name = ".zip")
    (hraw : strEndsWith raw_name ".sql" = true) :
    (compress_content "gzip" raw_name bytes).toOption.bind
        (decompress_content gz_name) =
      some (dropLastSuffix gz_name, bytes) ∧
    (compress_content "zip" raw_name bytes).toOption.bind
        (decompress_content zip_name) = some (raw_name, bytes) := by
  constructor
  · simp [compress_content, decompress_content, hgz, Except.toOption]
  · have hne : pathSuffix zip_name ≠ ".gz" := by rw [hzip]; decide
    simp [compress_content, decompress_content, hzip, hne, firstSqlEntry,
      hraw, Except.toOption]

/-- Witness for C5 on a concrete dump: both round trips reproduce the
bytes. -/
theorem claim_C5_witness :
    pathSuffix "db_backup_t.sql.gz" = ".gz" ∧
    pathSuffix "db_backup_t.sql.zip" = ".zip" ∧
    strEndsWith "db_backup_t.sql" ".sql" = true ∧
    (compress_content "gzip" "db_backup_t.sql" [1, 2, 3]).toOption.bind
        (decompress_content "db_backup_t.sql.gz") =
      some (dropLastSuffix "db_backup_t.sql.gz", [1, 2, 3]) ∧
    (compress_content "zip" "db_backup_t.sql" [1, 2, 3]).toOption.bind
        (decompress_content "db_backup_t.sql.zip") =
      some ("db_backup_t.sql", [1, 2, 3]) :=
  ⟨by decide, by decide, by decide,
   (claim_C5 "db_backup_t.sql" "db_backup_t.sql.gz" "db_backup_t.sql.zip"
     [1, 2, 3] (by decide) (by decide) (by decide)).1,
   (claim_C5 "db_backup_t.sql" "db_backup_t.sql.gz" "db_backup_t.sql.zip"
     [1, 2, 3] (by decide) (by decide) (by decide)).2⟩

/-- Claim C3 (code bug): when artifact resolution fails — the reference
names a non-existing local path, or is empty with the Drive tier absent —
the `finally` clause reads the still-unassigned local `temp_sql_file`
(first assigned only at line 335, after the resolution check at lines
327-329), so `restore_backup` raises `UnboundLocalError` past the call
boundary instead of returning the ordinary failure result `False`. -/
theorem claim_C3_bug :
    restore_backup ⟨false, none, none, true, [], true, .exited 0 "" ""⟩ []
        (some "missing.sql.gz") =
      (.error (.unboundLocal "temp_sql_file"), []) ∧
    restore_backup ⟨false, none, none, true, [], true, .exited 0 "" ""⟩ []
        none =
      (.error (.unboundLocal "temp_sql_file"), []) ∧
    restore_backup ⟨true, none, none, true, [], true, .exited 0 "" ""⟩ []
        none =
      (.error (.unboundLocal "temp_sql_file"), []) :=
  ⟨rfl, rfl, rfl⟩

/-- Claim C10 (code bug): when the reference already points to a raw
file (neither `.gz` nor `.zip`), line 356 aliases `temp_sql_file` to the
original backup file itself, and the `finally` cleanup at lines 391-393
unlinks it — the restore succeeds, yet the original artifact passed in is
deleted from the directory as a side effect. -/
theorem claim_C10_bug :
    restore_backup ⟨false, none, none, true, [], true, .exited 0 "" ""⟩
        [⟨"dump.sql", 0⟩] (some "dump.sql") = (.ok true, []) ∧
    fileExists "dump.sql"
      (restore_backup ⟨false, none, none, true, [], true, .exited 0 "" ""⟩
        [⟨"dump.sql", 0⟩] (some "dump.sql")).2 = false :=
  ⟨rfl, rfl⟩
